import Mathlib

/-!
# Verification of the pmbus crate's numeric codecs and command engine

This file is a shallow embedding, in Lean 4, of the core of the `pmbus`
crate (`src/lib.rs`): the DIRECT, LINEAR11 and unsigned LINEAR16 numeric
codecs, together with models of the command-table lookup and the
field-mutation engine described by the crate's interface.

Modelling conventions:
* Machine integers (`u16`, `i16`, ...) are modelled as `ℕ`/`ℤ` with the
  relevant reductions (`% 2^16`, sign extension, saturation) made explicit.
* `f32` arithmetic is idealized as exact arithmetic over `ℚ`.  The Rust
  primitives `f32::round` (round half away from zero), `as i16`/`as u16`
  (truncate toward zero, then saturate to the target range) and
  `ceil(log2 _)` are given exact rational/integer counterparts.
* Fallible operations return `Option`.
-/

namespace Pmbus

/-- Rust `f32::round`: round to the nearest integer, halves away from zero. -/
def rustRound (q : ℚ) : ℤ := if 0 ≤ q then ⌊q + 1/2⌋ else ⌈q - 1/2⌉

/-- Truncation toward zero, the rounding used by Rust `as` casts from floats. -/
def rustTrunc (q : ℚ) : ℤ := if 0 ≤ q then ⌊q⌋ else ⌈q⌉

/-- Rust `x as i16` for a float `x`: truncate toward zero and saturate to
the `i16` range. -/
def i16SatCast (q : ℚ) : ℤ := max (-32768) (min 32767 (rustTrunc q))

/-- Rust `z as u16` for an integral value `z`: saturate to the `u16` range. -/
def u16SatCast (z : ℤ) : ℕ := (max 0 (min 65535 z)).toNat

/-- Reinterpret the bits of a `u16` as an `i16` (Rust `w as i16`). -/
def toI16 (w : ℕ) : ℤ := if w < 32768 then (w : ℤ) else (w : ℤ) - 65536

/-- Sign-extend the low `k` bits: the value `v` (with `v < 2^k`) read as a
`k`-bit two's complement integer. -/
def sext (k : ℕ) (v : ℕ) : ℤ := if v < 2 ^ (k - 1) then (v : ℤ) else (v : ℤ) - 2 ^ k

/-- Arithmetic shift right by `k` bits of a two's complement integer:
floor division by `2^k`. -/
def asr (z : ℤ) (k : ℕ) : ℤ := Int.fdiv z (2 ^ k)

/-!
## The LINEAR11 format (`Linear11` in `src/lib.rs`)

A 16-bit word: 5 bits of signed exponent `N` (high bits) and 11 bits of
signed mantissa `Y` (low bits); the represented value is `Y * 2^N`.
-/

/-- `const LINEAR11_Y_WIDTH: u16 = 11`. -/
def LINEAR11_Y_WIDTH : ℕ := 11

/-- `const LINEAR11_Y_MAX: i16 = (1 << (LINEAR11_Y_WIDTH - 1)) - 1` = 1023. -/
def LINEAR11_Y_MAX : ℤ := 2 ^ (LINEAR11_Y_WIDTH - 1) - 1

/-- `const LINEAR11_Y_MIN: i16 = -(1 << (LINEAR11_Y_WIDTH - 1))` = -1024. -/
def LINEAR11_Y_MIN : ℤ := -(2 ^ (LINEAR11_Y_WIDTH - 1))

/-- `const LINEAR11_N_WIDTH: u16 = 5`. -/
def LINEAR11_N_WIDTH : ℕ := 5

/-- `const LINEAR11_N_MAX: i16 = (1 << (LINEAR11_N_WIDTH - 1)) - 1` = 15. -/
def LINEAR11_N_MAX : ℤ := 2 ^ (LINEAR11_N_WIDTH - 1) - 1

/-- `const LINEAR11_N_MIN: i16 = -(1 << (LINEAR11_N_WIDTH - 1))` = -16. -/
def LINEAR11_N_MIN : ℤ := -(2 ^ (LINEAR11_N_WIDTH - 1))

/-- `pub struct Linear11(pub u16)`: the field `word` is the 16-bit wire word. -/
structure Linear11 where
  word : ℕ
deriving DecidableEq

/-- `Linear11::to_real`:
`n = (self.0 as i16) >> 11` (arithmetic shift) and
`y = ((self.0 << 5) as i16) >> 5` (the `u16` shift wraps modulo `2^16`),
returning `y as f32 * 2^n`. -/
def Linear11.to_real (l : Linear11) : ℚ :=
  let n : ℤ := asr (toI16 l.word) LINEAR11_Y_WIDTH
  let y : ℤ := asr (toI16 ((l.word <<< LINEAR11_N_WIDTH) % 65536)) LINEAR11_N_WIDTH
  (y : ℚ) * (2 : ℚ) ^ n

/-- `Linear11::from_real`.  The source computes
`n = ceil(log2(q)) as i16` for `q = x / Y_MAX` (when `x >= 0`) or
`q = x / Y_MIN` (when `x < 0`); for `q = 0` the float `log2` is `-inf`,
whose ceiling saturates to `-32768` under `as i16`, which the subsequent
range check rejects.  On success the word is
`(((n & 0x1f) as u16) << 11) | (((x / 2^n) as i16 & 0x7ff) as u16)`;
on two's complement integers `n & 0x1f` is `n % 32`, `& 0x7ff` is
`.emod 2048`, and the two disjoint bit fields combine by addition. -/
def Linear11.from_real (x : ℚ) : Option Linear11 :=
  let q : ℚ := if 0 ≤ x then x / (LINEAR11_Y_MAX : ℚ) else x / (LINEAR11_Y_MIN : ℚ)
  let n : ℤ := if 0 < q then Int.clog 2 q else -32768
  if n < LINEAR11_N_MIN ∨ LINEAR11_N_MAX < n then none
  else
    let y : ℚ := x / (2 : ℚ) ^ n
    some ⟨(n % 32).toNat * 2048 + ((i16SatCast y) % 2048).toNat⟩

/-!
### Decoding lemmas
-/

theorem asr_toI16_eleven (w : ℕ) (h : w < 65536) :
    asr (toI16 w) 11 = sext 5 (w / 2048) := by
  simp only [asr, toI16, sext]
  rw [Int.fdiv_eq_ediv _ (by norm_num)]
  norm_num
  split <;> split <;> omega

theorem asr_toI16_low (w : ℕ) :
    asr (toI16 ((w <<< 5) % 65536)) 5 = sext 11 (w % 2048) := by
  simp only [asr, toI16, sext, Nat.shiftLeft_eq]
  rw [Int.fdiv_eq_ediv _ (by norm_num)]
  norm_num
  split <;> split <;> omega

/-- The decoded value of a LINEAR11 word `w < 2^16` is
`sext 11 (low 11 bits) * 2 ^ sext 5 (high 5 bits)`. -/
theorem linear11_to_real_decompose (w : ℕ) (h : w < 65536) :
    Linear11.to_real ⟨w⟩ =
      (sext 11 (w % 2048) : ℚ) * (2 : ℚ) ^ sext 5 (w / 2048) := by
  show ((asr (toI16 ((w <<< 5) % 65536)) 5 : ℤ) : ℚ) * (2 : ℚ) ^ asr (toI16 w) 11 =
      (sext 11 (w % 2048) : ℚ) * (2 : ℚ) ^ sext 5 (w / 2048)
  rw [asr_toI16_eleven w h, asr_toI16_low w]

/-- Claim C2: for every 16-bit word `w`, `Linear11::to_real` returns
`Y * 2^N`, where `N` is the arithmetic (sign-extending) right shift of the
word by 11 bits and `Y` is the low 11 bits of the word sign-extended. -/
theorem linear11_to_real_spec (w : ℕ) (h : w < 65536) :
    Linear11.to_real ⟨w⟩ =
      (sext 11 (w % 2048) : ℚ) * (2 : ℚ) ^ asr (toI16 w) 11 := by
  rw [linear11_to_real_decompose w h, asr_toI16_eleven w h]

/-- Witness for C2 at the concrete word `0xBA00 = 47616`. -/
theorem linear11_to_real_spec_witness :
    47616 < 65536 ∧
      Linear11.to_real ⟨47616⟩ =
        (sext 11 (47616 % 2048) : ℚ) * (2 : ℚ) ^ asr (toI16 47616) 11 :=
  ⟨by norm_num, linear11_to_real_spec 47616 (by norm_num)⟩

/-- Encoding zero fails: the intermediate `q` is zero, so the saturated
exponent `-32768` is rejected by the range check. -/
theorem linear11_from_real_zero : Linear11.from_real 0 = none := by
  simp [Linear11.from_real, LINEAR11_N_MIN, LINEAR11_N_MAX, LINEAR11_N_WIDTH,
    LINEAR11_Y_MAX, LINEAR11_Y_MIN, LINEAR11_Y_WIDTH]

/-- Claim C9: `Linear11::from_real(0.0)` returns `None` (the ceiling of
`log2 0 = -inf` saturates below the 5-bit exponent minimum), even though
the word `0x0000` decodes to `0`: zero is decodable but not encodable. -/
theorem linear11_zero_not_encodable :
    Linear11.from_real 0 = none ∧ Linear11.to_real ⟨0⟩ = 0 := by
  refine ⟨linear11_from_real_zero, ?_⟩
  rw [linear11_to_real_decompose 0 (by norm_num)]
  simp [sext]

/-!
### Sign-extension and bit-packing lemmas
-/

theorem sext5_emod (n : ℤ) (h1 : -16 ≤ n) (h2 : n ≤ 15) :
    sext 5 (n % 32).toNat = n := by
  simp only [sext, show (5 : ℕ) - 1 = 4 from rfl,
    show (2 : ℕ) ^ 4 = 16 from rfl, show ((2 : ℤ) ^ (5 : ℕ)) = 32 from rfl]
  split <;> omega

theorem sext11_emod (t : ℤ) (h1 : -1024 ≤ t) (h2 : t ≤ 1023) :
    sext 11 (t % 2048).toNat = t := by
  simp only [sext, show (11 : ℕ) - 1 = 10 from rfl,
    show (2 : ℕ) ^ 10 = 1024 from rfl, show ((2 : ℤ) ^ (11 : ℕ)) = 2048 from rfl]
  split <;> omega

/-!
### Bounds on the LINEAR11 mantissa chosen by `from_real`

With `n = ceil(log2 (x / bound))`, the quotient `x / 2^n` always lands in
`(511.5, 1023]` for positive `x` and in `[-1024, -512)` for negative `x`.
-/

theorem linear11_y_le_pos (x : ℚ) (hx : 0 < x) :
    x / (2 : ℚ) ^ Int.clog 2 (x / 1023) ≤ 1023 := by
  have h2 : (0 : ℚ) < (2 : ℚ) ^ Int.clog 2 (x / 1023) := zpow_pos (by norm_num) _
  have h := @Int.self_le_zpow_clog ℚ _ _ 2 (by norm_num) (x / 1023)
  push_cast at h
  rw [div_le_iff (by norm_num : (0 : ℚ) < 1023)] at h
  rw [div_le_iff h2]
  linarith

theorem linear11_y_gt_pos (x : ℚ) (hx : 0 < x) :
    1023 / 2 < x / (2 : ℚ) ^ Int.clog 2 (x / 1023) := by
  have hq : 0 < x / 1023 := by positivity
  have h2 : (0 : ℚ) < (2 : ℚ) ^ Int.clog 2 (x / 1023) := zpow_pos (by norm_num) _
  have h := @Int.zpow_pred_clog_lt_self ℚ _ _ 2 (x / 1023) (by norm_num) hq
  push_cast at h
  rw [zpow_sub_one₀ (by norm_num : (2 : ℚ) ≠ 0)] at h
  rw [lt_div_iff (by norm_num : (0 : ℚ) < 1023)] at h
  rw [lt_div_iff h2]
  linarith

theorem linear11_y_ge_neg (x : ℚ) (hx : x < 0) :
    -1024 ≤ x / (2 : ℚ) ^ Int.clog 2 (x / (-1024)) := by
  have h2 : (0 : ℚ) < (2 : ℚ) ^ Int.clog 2 (x / (-1024)) := zpow_pos (by norm_num) _
  have h := @Int.self_le_zpow_clog ℚ _ _ 2 (by norm_num) (x / (-1024))
  push_cast at h
  rw [div_le_iff_of_neg (by norm_num : (-1024 : ℚ) < 0)] at h
  rw [le_div_iff h2]
  linarith

theorem linear11_y_lt_neg (x : ℚ) (hx : x < 0) :
    x / (2 : ℚ) ^ Int.clog 2 (x / (-1024)) < -512 := by
  have hq : 0 < x / (-1024) := div_pos_iff.mpr (Or.inr ⟨hx, by norm_num⟩)
  have h2 : (0 : ℚ) < (2 : ℚ) ^ Int.clog 2 (x / (-1024)) := zpow_pos (by norm_num) _
  have h := @Int.zpow_pred_clog_lt_self ℚ _ _ 2 (x / (-1024)) (by norm_num) hq
  push_cast at h
  rw [zpow_sub_one₀ (by norm_num : (2 : ℚ) ≠ 0)] at h
  rw [lt_div_iff_of_neg (by norm_num : (-1024 : ℚ) < 0)] at h
  rw [div_lt_iff h2]
  linarith

/-!
### Characterizations of `Linear11.from_real` on each sign
-/

theorem linear11_from_real_pos (x : ℚ) (hx : 0 < x) :
    Linear11.from_real x =
      if Int.clog 2 (x / 1023) < -16 ∨ 15 < Int.clog 2 (x / 1023) then none
      else some ⟨((Int.clog 2 (x / 1023)) % 32).toNat * 2048 +
        ((⌊x / (2 : ℚ) ^ Int.clog 2 (x / 1023)⌋) % 2048).toNat⟩ := by
  have hx0 : (0 : ℚ) ≤ x := le_of_lt hx
  have hY : ((LINEAR11_Y_MAX : ℤ) : ℚ) = 1023 := by
    norm_num [LINEAR11_Y_MAX, LINEAR11_Y_WIDTH]
  have hNmin : LINEAR11_N_MIN = -16 := by norm_num [LINEAR11_N_MIN, LINEAR11_N_WIDTH]
  have hNmax : LINEAR11_N_MAX = 15 := by norm_num [LINEAR11_N_MAX, LINEAR11_N_WIDTH]
  have hq : 0 < x / 1023 := by positivity
  simp only [Linear11.from_real, hY, hNmin, hNmax, if_pos hx0, if_pos hq]
  split
  · rfl
  · have hy0 : (0 : ℚ) ≤ x / (2 : ℚ) ^ Int.clog 2 (x / 1023) := by positivity
    have hyle := linear11_y_le_pos x hx
    have hfl : (0 : ℤ) ≤ ⌊x / (2 : ℚ) ^ Int.clog 2 (x / 1023)⌋ := Int.floor_nonneg.mpr hy0
    have hfu : ⌊x / (2 : ℚ) ^ Int.clog 2 (x / 1023)⌋ ≤ 1023 := by
      have := Int.floor_le_floor hyle
      simpa using this
    have hcast : i16SatCast (x / (2 : ℚ) ^ Int.clog 2 (x / 1023)) =
        ⌊x / (2 : ℚ) ^ Int.clog 2 (x / 1023)⌋ := by
      simp only [i16SatCast, rustTrunc, if_pos hy0]
      omega
    rw [hcast]

theorem linear11_from_real_neg (x : ℚ) (hx : x < 0) :
    Linear11.from_real x =
      if Int.clog 2 (x / (-1024)) < -16 ∨ 15 < Int.clog 2 (x / (-1024)) then none
      else some ⟨((Int.clog 2 (x / (-1024))) % 32).toNat * 2048 +
        ((⌈x / (2 : ℚ) ^ Int.clog 2 (x / (-1024))⌉) % 2048).toNat⟩ := by
  have hx0 : ¬ (0 : ℚ) ≤ x := not_le.mpr hx
  have hY : ((LINEAR11_Y_MIN : ℤ) : ℚ) = -1024 := by
    norm_num [LINEAR11_Y_MIN, LINEAR11_Y_WIDTH]
  have hNmin : LINEAR11_N_MIN = -16 := by norm_num [LINEAR11_N_MIN, LINEAR11_N_WIDTH]
  have hNmax : LINEAR11_N_MAX = 15 := by norm_num [LINEAR11_N_MAX, LINEAR11_N_WIDTH]
  have hq : 0 < x / (-1024) := div_pos_iff.mpr (Or.inr ⟨hx, by norm_num⟩)
  simp only [Linear11.from_real, hY, hNmin, hNmax, if_neg hx0, if_pos hq]
  split
  · rfl
  · have hy0 : x / (2 : ℚ) ^ Int.clog 2 (x / (-1024)) < 0 :=
      div_neg_of_neg_of_pos hx (zpow_pos (by norm_num) _)
    have hyge := linear11_y_ge_neg x hx
    have hcl : -1024 ≤ ⌈x / (2 : ℚ) ^ Int.clog 2 (x / (-1024))⌉ := by
      have := Int.ceil_le_ceil hyge
      simpa using this
    have hcu : ⌈x / (2 : ℚ) ^ Int.clog 2 (x / (-1024))⌉ ≤ 0 :=
      Int.ceil_le.mpr (by exact_mod_cast le_of_lt hy0)
    have hcast : i16SatCast (x / (2 : ℚ) ^ Int.clog 2 (x / (-1024))) =
        ⌈x / (2 : ℚ) ^ Int.clog 2 (x / (-1024))⌉ := by
      simp only [i16SatCast, rustTrunc, if_neg (not_le.mpr hy0)]
      omega
    rw [hcast]

/-!
### Pinning down concrete values of `Int.clog`
-/

theorem clog2_eq (x : ℚ) (n : ℤ) (h1 : (2 : ℚ) ^ (n - 1) < x) (h2 : x ≤ (2 : ℚ) ^ n) :
    Int.clog 2 x = n := by
  have hx : 0 < x := lt_trans (zpow_pos (by norm_num) _) h1
  have hle : Int.clog 2 x ≤ n := by
    rw [← @Int.le_zpow_iff_clog_le ℚ _ _ 2 (by norm_num) n x hx]
    exact_mod_cast h2
  have hlt : n - 1 < Int.clog 2 x := by
    rw [← @Int.zpow_lt_iff_lt_clog ℚ _ _ 2 (by norm_num) (n - 1) x hx]
    exact_mod_cast h1
  omega

/-!
### Claim C6: the LINEAR11 round trip is exact to within one mantissa step
-/

/-- Claim C6: whenever `Linear11::from_real` succeeds, decoding the encoded
word differs from the input by at most `2^N`, the representable step at the
chosen exponent `N = ceil(log2 (x / Y_bound))`. -/
theorem linear11_roundtrip_error_bound (x : ℚ) (l : Linear11)
    (h : Linear11.from_real x = some l) :
    |Linear11.to_real l - x| ≤
      (2 : ℚ) ^ Int.clog 2 (if 0 ≤ x then x / 1023 else x / (-1024)) := by
  rcases lt_trichotomy x 0 with hneg | hzero | hpos
  · rw [if_neg (not_le.mpr hneg)]
    rw [linear11_from_real_neg x hneg] at h
    set n := Int.clog 2 (x / (-1024)) with hn
    set y := x / (2 : ℚ) ^ n with hy
    have h2 : (0 : ℚ) < (2 : ℚ) ^ n := zpow_pos (by norm_num) _
    split at h
    · exact absurd h (by simp)
    · rename_i hcond
      push_neg at hcond
      obtain ⟨hn1, hn2⟩ := hcond
      rw [Option.some.injEq] at h
      set t := ⌈y⌉ with ht
      have hyge : -1024 ≤ y := linear11_y_ge_neg x hneg
      have hylt : y < -512 := linear11_y_lt_neg x hneg
      have ht0 : t ≤ 0 := Int.ceil_le.mpr (by push_cast; linarith)
      have htm : -1024 ≤ t := by
        have := Int.ceil_le_ceil hyge
        simpa using this
      have hb : ((t % 2048).toNat) < 2048 := by omega
      have hw : (n % 32).toNat * 2048 + (t % 2048).toNat < 65536 := by omega
      rw [← h, linear11_to_real_decompose _ hw]
      have e1 : ((n % 32).toNat * 2048 + (t % 2048).toNat) % 2048 = (t % 2048).toNat := by
        omega
      have e2 : ((n % 32).toNat * 2048 + (t % 2048).toNat) / 2048 = (n % 32).toNat := by
        omega
      rw [e1, e2, sext11_emod t htm (by omega), sext5_emod n hn1 hn2]
      have hx_eq : y * (2 : ℚ) ^ n = x := div_mul_cancel₀ x (ne_of_gt h2)
      have habs : |(t : ℚ) - y| ≤ 1 := by
        rw [abs_le]
        constructor
        · have := Int.le_ceil y
          linarith
        · have := Int.ceil_lt_add_one y
          linarith
      calc |(t : ℚ) * (2 : ℚ) ^ n - x| = |((t : ℚ) - y) * (2 : ℚ) ^ n| := by
            rw [sub_mul, hx_eq]
        _ = |(t : ℚ) - y| * (2 : ℚ) ^ n := by rw [abs_mul, abs_of_pos h2]
        _ ≤ 1 * (2 : ℚ) ^ n := mul_le_mul_of_nonneg_right habs (le_of_lt h2)
        _ = (2 : ℚ) ^ n := one_mul _
  · subst hzero
    rw [linear11_from_real_zero] at h
    exact absurd h (by simp)
  · rw [if_pos (le_of_lt hpos)]
    rw [linear11_from_real_pos x hpos] at h
    set n := Int.clog 2 (x / 1023) with hn
    set y := x / (2 : ℚ) ^ n with hy
    have h2 : (0 : ℚ) < (2 : ℚ) ^ n := zpow_pos (by norm_num) _
    split at h
    · exact absurd h (by simp)
    · rename_i hcond
      push_neg at hcond
      obtain ⟨hn1, hn2⟩ := hcond
      rw [Option.some.injEq] at h
      set t := ⌊y⌋ with ht
      have hy0 : (0 : ℚ) ≤ y := by positivity
      have hyle : y ≤ 1023 := linear11_y_le_pos x hpos
      have ht0 : 0 ≤ t := Int.floor_nonneg.mpr hy0
      have htm : t ≤ 1023 := by
        have := Int.floor_le_floor hyle
        simpa using this
      have hb : ((t % 2048).toNat) < 2048 := by omega
      have hw : (n % 32).toNat * 2048 + (t % 2048).toNat < 65536 := by omega
      rw [← h, linear11_to_real_decompose _ hw]
      have e1 : ((n % 32).toNat * 2048 + (t % 2048).toNat) % 2048 = (t % 2048).toNat := by
        omega
      have e2 : ((n % 32).toNat * 2048 + (t % 2048).toNat) / 2048 = (n % 32).toNat := by
        omega
      rw [e1, e2, sext11_emod t (by omega) (by omega), sext5_emod n hn1 hn2]
      have hx_eq : y * (2 : ℚ) ^ n = x := div_mul_cancel₀ x (ne_of_gt h2)
      have habs : |(t : ℚ) - y| ≤ 1 := by
        rw [abs_le]
        constructor
        · have := Int.sub_one_lt_floor y
          linarith
        · have := Int.floor_le y
          linarith
      calc |(t : ℚ) * (2 : ℚ) ^ n - x| = |((t : ℚ) - y) * (2 : ℚ) ^ n| := by
            rw [sub_mul, hx_eq]
        _ = |(t : ℚ) - y| * (2 : ℚ) ^ n := by rw [abs_mul, abs_of_pos h2]
        _ ≤ 1 * (2 : ℚ) ^ n := mul_le_mul_of_nonneg_right habs (le_of_lt h2)
        _ = (2 : ℚ) ^ n := one_mul _

/-- Encoding the concrete value `1`: the chosen exponent is `-9` and the
mantissa is `512`, giving the word `0xBA00 = 47616`. -/
theorem linear11_from_real_one : Linear11.from_real 1 = some ⟨47616⟩ := by
  rw [linear11_from_real_pos 1 (by norm_num)]
  have hc : Int.clog 2 ((1 : ℚ) / 1023) = -9 := by
    apply clog2_eq
    · rw [show (-9 : ℤ) - 1 = -10 from rfl, zpow_neg]
      norm_num
    · rw [zpow_neg]
      norm_num
  rw [hc]
  rw [if_neg (by norm_num)]
  have hp : ((2 : ℚ) ^ (-9 : ℤ)) = 1 / 512 := by
    rw [zpow_neg]
    norm_num
  rw [hp]
  have hf : ⌊(1 : ℚ) / (1 / 512)⌋ = 512 := by
    rw [Int.floor_eq_iff] <;> norm_num
  rw [hf]
  decide

/-- Witness for C6 at the concrete input `1`. -/
theorem linear11_roundtrip_error_bound_witness :
    Linear11.from_real 1 = some ⟨47616⟩ ∧
      |Linear11.to_real ⟨47616⟩ - 1| ≤
        (2 : ℚ) ^ Int.clog 2 (if (0 : ℚ) ≤ 1 then (1 : ℚ) / 1023 else (1 : ℚ) / (-1024)) :=
  ⟨linear11_from_real_one, linear11_roundtrip_error_bound 1 ⟨47616⟩ linear11_from_real_one⟩

/-!
### Claim C1: the LINEAR11 encoder

The claim (and the spec) say the mantissa is `round(x / 2^N)`; the source
casts with `as i16`, which truncates toward zero.  The two disagree on any
input whose scaled mantissa has fractional part at least one half, e.g.
`x = 1537/512`, where `x / 2^(-8) = 768.5`.
-/

/-- Claim C1 as stated: exponent `N = ceil(log2 (x / Y_bound))`, `None`
exactly when `N` lies outside `[-16, 15]`, mantissa rounded to nearest.
(`ceil(log2 0) = -inf` lies below the range, covering `x = 0`.) -/
def linear11EncodeRound (x : ℚ) : Option Linear11 :=
  if x = 0 then none
  else
    let bound : ℚ := if 0 ≤ x then 1023 else -1024
    let n : ℤ := Int.clog 2 (x / bound)
    if n < -16 ∨ 15 < n then none
    else some ⟨(n % 32).toNat * 2048 + ((rustRound (x / (2 : ℚ) ^ n)) % 2048).toNat⟩

/-- Claim C1 amended: as claimed, except that the mantissa is
`x / 2^N` truncated toward zero rather than rounded to nearest. -/
def linear11EncodeTrunc (x : ℚ) : Option Linear11 :=
  if x = 0 then none
  else
    let bound : ℚ := if 0 ≤ x then 1023 else -1024
    let n : ℤ := Int.clog 2 (x / bound)
    if n < -16 ∨ 15 < n then none
    else some ⟨(n % 32).toNat * 2048 + ((rustTrunc (x / (2 : ℚ) ^ n)) % 2048).toNat⟩

theorem clog_larger_example : Int.clog 2 ((1537 : ℚ) / 512 / 1023) = -8 := by
  apply clog2_eq
  · rw [show (-8 : ℤ) - 1 = -9 from rfl, zpow_neg]
    norm_num
  · rw [zpow_neg]
    norm_num

/-- Counterexample to claim C1 as stated: at `x = 1537/512` the source
truncates the scaled mantissa `768.5` to `768` (word `49920`), while the
claimed rounding gives `769` (word `49921`). -/
theorem linear11_round_claim_false :
    Linear11.from_real (1537 / 512) ≠ linear11EncodeRound (1537 / 512) := by
  have hpow : ((2 : ℚ) ^ (-8 : ℤ)) = 1 / 256 := by
    rw [zpow_neg]
    norm_num
  have hlhs : Linear11.from_real (1537 / 512) = some ⟨49920⟩ := by
    rw [linear11_from_real_pos _ (by norm_num), clog_larger_example,
      if_neg (by norm_num), hpow]
    have hf : ⌊(1537 : ℚ) / 512 / (1 / 256)⌋ = 768 := by
      rw [Int.floor_eq_iff] <;> norm_num
    rw [hf]
    decide
  have hrhs : linear11EncodeRound (1537 / 512) = some ⟨49921⟩ := by
    simp only [linear11EncodeRound, if_neg (by norm_num : ¬(1537 : ℚ) / 512 = 0),
      if_pos (by norm_num : (0 : ℚ) ≤ 1537 / 512), clog_larger_example,
      if_neg (by norm_num : ¬((-8 : ℤ) < -16 ∨ 15 < (-8 : ℤ))), hpow]
    have hr : rustRound ((1537 : ℚ) / 512 / (1 / 256)) = 769 := by
      rw [rustRound, if_pos (by norm_num)]
      rw [Int.floor_eq_iff] <;> norm_num
    rw [hr]
    decide
  rw [hlhs, hrhs]
  simp

/-- Claim C1 amended and proved: `Linear11::from_real` agrees everywhere
with the claimed encoder once `round` is replaced by truncation toward
zero. -/
theorem linear11_from_real_truncates (x : ℚ) :
    Linear11.from_real x = linear11EncodeTrunc x := by
  rcases lt_trichotomy x 0 with hneg | hzero | hpos
  · rw [linear11_from_real_neg x hneg]
    simp only [linear11EncodeTrunc, if_neg (ne_of_lt hneg), if_neg (not_le.mpr hneg)]
    have hy0 : x / (2 : ℚ) ^ Int.clog 2 (x / (-1024)) < 0 :=
      div_neg_of_neg_of_pos hneg (zpow_pos (by norm_num) _)
    rw [show rustTrunc (x / (2 : ℚ) ^ Int.clog 2 (x / (-1024))) =
        ⌈x / (2 : ℚ) ^ Int.clog 2 (x / (-1024))⌉ from
      if_neg (not_le.mpr hy0)]
  · subst hzero
    rw [linear11_from_real_zero]
    simp [linear11EncodeTrunc]
  · rw [linear11_from_real_pos x hpos]
    simp only [linear11EncodeTrunc, if_neg (ne_of_gt hpos), if_pos (le_of_lt hpos)]
    have hy0 : (0 : ℚ) ≤ x / (2 : ℚ) ^ Int.clog 2 (x / 1023) := by positivity
    rw [show rustTrunc (x / (2 : ℚ) ^ Int.clog 2 (x / 1023)) =
        ⌊x / (2 : ℚ) ^ Int.clog 2 (x / 1023)⌋ from if_pos hy0]

/-!
## The DIRECT format (`Direct` in `src/lib.rs`)
-/

/-- `pub struct Coefficients { m: i32, b: i16, R: i8 }`: slope, offset and
decimal exponent for the DIRECT format. -/
structure Coefficients where
  m : ℤ
  b : ℤ
  R : ℤ
deriving DecidableEq

/-- `pub struct Direct(pub u16, pub Coefficients)`: the field `wire` is the
16-bit wire value. -/
structure Direct where
  wire : ℕ
  coef : Coefficients
deriving DecidableEq

/-- `Direct::to_real`: `(y * 10^-R - b) / m` with `y = self.0 as i16`. -/
def Direct.to_real (d : Direct) : ℚ :=
  ((toI16 d.wire : ℚ) * (10 : ℚ) ^ (-d.coef.R) - (d.coef.b : ℚ)) / (d.coef.m : ℚ)

/-- `Direct::from_real`: `y = (m * x + b) * 10^R`, stored as
`y.round() as u16`; the Rust float-to-integer cast saturates to the `u16`
range. -/
def Direct.from_real (x : ℚ) (c : Coefficients) : Direct :=
  ⟨u16SatCast (rustRound (((c.m : ℚ) * x + (c.b : ℚ)) * (10 : ℚ) ^ c.R)), c⟩

/-- Claim C4: for every 16-bit wire value `y` and coefficients `(m, b, R)`,
`Direct::to_real` returns `(y' * 10^(-R) - b) / m` where `y'` reinterprets
`y` as a signed 16-bit integer (here: sign extension of the low 16 bits). -/
theorem direct_to_real_spec (w : ℕ) (h : w < 65536) (c : Coefficients) :
    Direct.to_real ⟨w, c⟩ =
      ((sext 16 w : ℚ) * (10 : ℚ) ^ (-c.R) - (c.b : ℚ)) / (c.m : ℚ) := by
  have hs : sext 16 w = toI16 w := by
    simp only [sext, toI16, show (16 : ℕ) - 1 = 15 from rfl,
      show (2 : ℕ) ^ 15 = 32768 from rfl, show ((2 : ℤ) ^ (16 : ℕ)) = 65536 from rfl]
  rw [Direct.to_real, hs]

/-- Witness for C4 at wire value `40000` with coefficients `(3, -2, 1)`. -/
theorem direct_to_real_spec_witness :
    40000 < 65536 ∧ Direct.to_real ⟨40000, 3, -2, 1⟩ = -12758 / 15 := by
  refine ⟨by norm_num, ?_⟩
  rw [direct_to_real_spec 40000 (by norm_num) ⟨3, -2, 1⟩]
  have hs : sext 16 40000 = -25536 := by decide
  rw [hs]
  have hp : ((10 : ℚ) ^ (-(1 : ℤ))) = 1 / 10 := by
    rw [zpow_neg]
    norm_num
  push_cast
  rw [hp]
  norm_num

/-- The claim C3 wire value as stated: the rounded value wrapped modulo
`2^16`. -/
def directEncodeWrap (x : ℚ) (c : Coefficients) : ℕ :=
  ((rustRound (((c.m : ℚ) * x + (c.b : ℚ)) * (10 : ℚ) ^ c.R)) % 65536).toNat

theorem rustRound_neg_one : rustRound ((-1 : ℚ) / (2 : ℚ) ^ (0 : ℤ)) = -1 := by
  rw [rustRound, if_neg (by norm_num)]
  rw [Int.ceil_eq_iff] <;> norm_num

/-- Counterexample to claim C3 as stated: at `x = -1` with coefficients
`(1, 0, 0)` the rounded value is `-1`; the source saturates the cast to `0`,
while wrapping modulo `2^16` would store `65535`. -/
theorem direct_wraparound_claim_false :
    (Direct.from_real (-1) ⟨1, 0, 0⟩).wire ≠ directEncodeWrap (-1) ⟨1, 0, 0⟩ := by
  have hr : rustRound ((((1 : ℤ) : ℚ)) * (-1) + (((0 : ℤ) : ℚ))) = -1 := by
    rw [rustRound, if_neg (by norm_num)]
    rw [Int.ceil_eq_iff] <;> norm_num
  have harg : (((1 : ℤ) : ℚ) * (-1) + ((0 : ℤ) : ℚ)) * (10 : ℚ) ^ ((0 : ℤ)) =
      ((1 : ℤ) : ℚ) * (-1) + ((0 : ℤ) : ℚ) := by
    rw [zpow_zero, mul_one]
  simp only [Direct.from_real, directEncodeWrap, harg, hr]
  decide

/-- Claim C3 amended: `Direct::from_real` computes
`round((m*x + b) * 10^R)` and stores it saturated (clamped) to the `u16`
range `[0, 65535]` — overflow never wraps and never errors (the encoder is
total). -/
theorem direct_from_real_saturates (x : ℚ) (c : Coefficients) :
    ((Direct.from_real x c).wire : ℤ) =
      max 0 (min 65535 (rustRound (((c.m : ℚ) * x + (c.b : ℚ)) * (10 : ℚ) ^ c.R)))
    ∧ (Direct.from_real x c).coef = c := by
  constructor
  · simp only [Direct.from_real, u16SatCast]
    rw [Int.toNat_of_nonneg (le_max_left 0 _)]
  · rfl

/-!
## The ULINEAR16 format (`ULinear16` in `src/lib.rs`)
-/

/-- `pub struct ULinear16Exponent(pub i8)`: the VOUT_MODE-supplied
exponent. -/
structure ULinear16Exponent where
  exp : ℤ
deriving DecidableEq

/-- `pub struct ULinear16(pub u16, pub ULinear16Exponent)`. -/
structure ULinear16 where
  wire : ℕ
  vexp : ULinear16Exponent
deriving DecidableEq

/-- `ULinear16::to_real`: `self.0 as f32 * 2^exp`. -/
def ULinear16.to_real (u : ULinear16) : ℚ :=
  (u.wire : ℚ) * (2 : ℚ) ^ u.vexp.exp

/-- `ULinear16::from_real`: `val = (x / 2^exp).round()`; `None` when
`val > u16::MAX as f32`; otherwise `Some(val as u16)` (a saturating
cast). -/
def ULinear16.from_real (x : ℚ) (e : ULinear16Exponent) : Option ULinear16 :=
  let val : ℤ := rustRound (x / (2 : ℚ) ^ e.exp)
  if 65535 < val then none
  else some ⟨u16SatCast val, e⟩

/-- Counterexample to claim C5 as stated: at `x = -1`, exponent `0`, the
rounded value `-1` lies outside `[0, 65535]`, yet the encoder does not
return `None` — it returns `Some` with wire value `0`. -/
theorem ulinear16_none_iff_claim_false :
    ¬ (ULinear16.from_real (-1) ⟨0⟩ = none ↔
        (rustRound ((-1 : ℚ) / (2 : ℚ) ^ (0 : ℤ)) < 0 ∨
          65535 < rustRound ((-1 : ℚ) / (2 : ℚ) ^ (0 : ℤ)))) := by
  have hfr : ULinear16.from_real (-1) ⟨0⟩ = some ⟨0, ⟨0⟩⟩ := by
    simp only [ULinear16.from_real, rustRound_neg_one]
    decide
  rw [hfr, rustRound_neg_one]
  simp

/-- Claim C5 amended: `ULinear16::from_real` returns `None` iff the
rounded value exceeds `65535`; when the rounded value is at most `65535`
it succeeds, storing the rounded value clamped below at `0`. -/
theorem ulinear16_from_real_characterization (x : ℚ) (e : ULinear16Exponent) :
    (ULinear16.from_real x e = none ↔ 65535 < rustRound (x / (2 : ℚ) ^ e.exp))
    ∧ (rustRound (x / (2 : ℚ) ^ e.exp) ≤ 65535 →
        ULinear16.from_real x e =
          some ⟨(max 0 (rustRound (x / (2 : ℚ) ^ e.exp))).toNat, e⟩) := by
  constructor
  · constructor
    · intro h
      by_contra hc
      simp only [ULinear16.from_real, if_neg hc] at h
      exact Option.some_ne_none _ h
    · intro h
      simp only [ULinear16.from_real, if_pos h]
  · intro h
    simp only [ULinear16.from_real, if_neg (not_lt.mpr h)]
    have : u16SatCast (rustRound (x / (2 : ℚ) ^ e.exp)) =
        (max 0 (rustRound (x / (2 : ℚ) ^ e.exp))).toNat := by
      simp only [u16SatCast]
      omega
    rw [this]

/-- Witness for C5 (amended) at `x = 98302`, exponent `0`: the rounded
value `98302` exceeds `65535`, and the encoder returns `None`. -/
theorem ulinear16_from_real_characterization_witness :
    ULinear16.from_real 98302 ⟨0⟩ = none ↔
      65535 < rustRound ((98302 : ℚ) / (2 : ℚ) ^ (0 : ℤ)) :=
  (ulinear16_from_real_characterization 98302 ⟨0⟩).1

/-- Claim C10: whenever the rounded value `round(x / 2^e)` is negative,
`ULinear16::from_real` does not fail: the saturating cast clamps the
negative value to `0`, so the result is `Some` with wire value `0`. -/
theorem ulinear16_negative_encodes_zero (x : ℚ) (e : ULinear16Exponent)
    (h : rustRound (x / (2 : ℚ) ^ e.exp) < 0) :
    ULinear16.from_real x e = some ⟨0, e⟩ := by
  simp only [ULinear16.from_real, if_neg (not_lt.mpr (by omega : rustRound (x / (2 : ℚ) ^ e.exp) ≤ 65535))]
  have : u16SatCast (rustRound (x / (2 : ℚ) ^ e.exp)) = 0 := by
    simp only [u16SatCast]
    omega
  rw [this]

/-- Witness for C10 at `x = -1`, exponent `0`. -/
theorem ulinear16_negative_encodes_zero_witness :
    rustRound ((-1 : ℚ) / (2 : ℚ) ^ (0 : ℤ)) < 0 ∧
      ULinear16.from_real (-1) ⟨0⟩ = some ⟨0, ⟨0⟩⟩ :=
  ⟨by rw [rustRound_neg_one]; norm_num,
    ulinear16_negative_encodes_zero (-1) ⟨0⟩ (by rw [rustRound_neg_one]; norm_num)⟩

/-!
## The field-mutation engine (claim C7)

`CommandData::mutate` lives in the generated `commands` module (produced
by the crate's build script from per-device RON tables), not in
`src/lib.rs`, so it is modelled here from the specification.
-/

/-- Modelled from the spec: `Replacement` — a caller-proposed new value
tagged Boolean, Integer or Float (`commands::Replacement`). -/
inductive Replacement where
  | Boolean (b : Bool)
  | Integer (v : ℕ)
  | Float (q : ℚ)
deriving DecidableEq

/-- Modelled from the spec: the mutation-relevant variants of
`commands::Error`. -/
inductive Error where
  | InvalidField
  | InvalidReplacement
  | OverflowReplacement
  | ValueOutOfRange
deriving DecidableEq

/-- Modelled from the spec: a `Field` is a named bit range (position and
width) within a command's raw storage. -/
structure Field where
  pos : ℕ
  width : ℕ
deriving DecidableEq

/-- The current bits of field `f` in raw storage. -/
def getBits (raw : ℕ) (f : Field) : ℕ := raw / 2 ^ f.pos % 2 ^ f.width

/-- Overwrite the bits of field `f` in raw storage with `bits`
(in-place bit-range write). -/
def setBits (raw : ℕ) (f : Field) (bits : ℕ) : ℕ :=
  raw / 2 ^ (f.pos + f.width) * 2 ^ (f.pos + f.width) +
    bits % 2 ^ f.width * 2 ^ f.pos + raw % 2 ^ f.pos

/-- Modelled from the spec: `CommandData::mutate` iterates the declared
fields in order; for each field the visitor sees the current value and may
propose a `Replacement`, which is validated and encoded (`encode`, covering
the spec's `InvalidReplacement` / `OverflowReplacement` / `ValueOutOfRange`
checks).  `none` leaves the field unchanged; a successful replacement is
folded into raw storage in place; the first failure stops the iteration and
returns the error, leaving the storage as already mutated. -/
def mutate (encode : Field → Replacement → Except Error ℕ)
    (visitor : Field → ℕ → Option Replacement) :
    List Field → ℕ → ℕ × Option Error
  | [], raw => (raw, none)
  | f :: rest, raw =>
    match visitor f (getBits raw f) with
    | none => mutate encode visitor rest raw
    | some rep =>
      match encode f rep with
      | .error e => (raw, some e)
      | .ok bits => mutate encode visitor rest (setBits raw f bits)

/-- The storage produced by applying only the successful replacements of a
field list (used to phrase what "earlier writes remain applied" means). -/
def applyOk (encode : Field → Replacement → Except Error ℕ)
    (visitor : Field → ℕ → Option Replacement) :
    List Field → ℕ → ℕ
  | [], raw => raw
  | f :: rest, raw =>
    match visitor f (getBits raw f) with
    | none => applyOk encode visitor rest raw
    | some rep =>
      match encode f rep with
      | .error _ => applyOk encode visitor rest raw
      | .ok bits => applyOk encode visitor rest (setBits raw f bits)

/-- Claim C7: during a single `mutate` call over fields
`pre ++ bad :: rest`, if every replacement proposed over `pre` validates
and the visitor's replacement for `bad` fails to validate with error `e`,
then the call stops at `bad` and returns `e`, with the writes for `pre`
already applied to raw storage (no rollback) and `rest` never reached. -/
theorem mutate_partial_application
    (encode : Field → Replacement → Except Error ℕ)
    (visitor : Field → ℕ → Option Replacement)
    (pre : List Field) (bad : Field) (rest : List Field) (raw : ℕ) (e : Error)
    (hpre : ∀ f ∈ pre, ∀ v rep, visitor f v = some rep →
      ∃ bits, encode f rep = .ok bits)
    (hbad : ∀ v, ∃ rep, visitor bad v = some rep ∧ encode bad rep = .error e) :
    mutate encode visitor (pre ++ bad :: rest) raw =
      (applyOk encode visitor pre raw, some e) := by
  revert hpre
  induction pre generalizing raw with
  | nil =>
    intro hpre
    obtain ⟨rep, hv, he⟩ := hbad (getBits raw bad)
    simp only [List.nil_append, applyOk, mutate, hv, he]
  | cons f fs ih =>
    intro hpre
    simp only [List.cons_append, mutate, applyOk]
    cases hv : visitor f (getBits raw f) with
    | none => exact ih _ (fun g hg => hpre g (List.mem_cons_of_mem f hg))
    | some rep =>
      obtain ⟨bits, hb⟩ := hpre f (List.mem_cons_self f fs) _ rep hv
      simp only [hb]
      exact ih _ (fun g hg => hpre g (List.mem_cons_of_mem f hg))

/-- A concrete validator instantiating the mutation model, following the
spec's rules for integer and boolean replacements: an integer replacement
is overflow-checked against the field's bit width, a boolean replacement
fits a 1-bit field, and a float replacement targeting these plain fields is
an invalid replacement. -/
def exampleEncode (f : Field) (rep : Replacement) : Except Error ℕ :=
  match rep with
  | .Boolean b => if f.width = 1 then .ok (if b then 1 else 0)
      else .error .InvalidReplacement
  | .Integer v => if v < 2 ^ f.width then .ok v else .error .OverflowReplacement
  | .Float _ => .error .InvalidReplacement

/-- A visitor mirroring the crate's `mutate_overflow_replacement` test
against `OPERATION`: propose `Integer 2` for the two-bit field at bit 4 and
the overflowing `Integer 3` elsewhere. -/
def exampleVisitor : Field → ℕ → Option Replacement :=
  fun f _ => if f.pos = 4 then some (.Integer 2) else some (.Integer 3)

/-- Witness for C7: on raw storage `0x04`, the two-bit field at bit 4 is
successfully rewritten to `2` (storage becomes `36 = 0x24`) before the
1-bit field at bit 7 fails with `OverflowReplacement`; the earlier write
stays applied. -/
theorem mutate_partial_application_witness :
    mutate exampleEncode exampleVisitor ([⟨4, 2⟩] ++ ⟨7, 1⟩ :: []) 4 =
      (36, some .OverflowReplacement) := by
  have h := mutate_partial_application exampleEncode exampleVisitor
    [⟨4, 2⟩] ⟨7, 1⟩ [] 4 .OverflowReplacement
    (by
      intro f hf v rep hv
      rw [List.mem_singleton] at hf
      subst hf
      simp only [exampleVisitor, eq_self_iff_true, if_true, Option.some.injEq] at hv
      subst hv
      exact ⟨2, rfl⟩)
    (fun v => ⟨.Integer 3, rfl, rfl⟩)
  rw [h]
  decide

/-!
## The command-code table (claim C8)

The `CommandCode` enum and its `from_u8` conversion are generated by the
crate's build script, not present in `src/lib.rs`; the model below is
built from the specification's invariant ("every value in 0-255 maps to
exactly one `CommandCode` variant; unused codes map to a defined
unknown/deprecated variant, never to absence") with the per-code entries
taken from the crate's own `verify_cmds` table (which is in
`src/lib.rs`).
-/

/-- `Operation`: the bus transfer kinds required to read or write a
command (`src/operation.rs`, re-exported as `pmbus::Operation`). -/
inductive Operation where
  | ReadByte
  | ReadWord
  | ReadWord32
  | ReadBlock
  | WriteByte
  | WriteWord
  | WriteBlock
  | SendByte
  | ProcessCall
  | MfrDefined
  | Extended
  | Illegal
  | Unknown
deriving DecidableEq

/-- The protocol metadata carried by one `CommandCode` variant: canonical
name, write operation and read operation. -/
structure Command where
  name : String
  writeOp : Operation
  readOp : Operation
deriving DecidableEq

set_option maxHeartbeats 2000000 in
/-- Modelled from the spec: the PMBus command table (Table 31 of the 1.3.1
specification), entry for entry as asserted by `verify_cmds` in
`src/lib.rs`; every code not listed there is a deprecated/unknown variant,
matching the `0x67 => Deprecated` precedent. -/
def commandTable (code : ℕ) : Command :=
  match code with
  | 0 => ⟨"PAGE", .WriteByte, .ReadByte⟩
  | 1 => ⟨"OPERATION", .WriteByte, .ReadByte⟩
  | 2 => ⟨"ON_OFF_CONFIG", .WriteByte, .ReadByte⟩
  | 3 => ⟨"CLEAR_FAULTS", .SendByte, .Illegal⟩
  | 4 => ⟨"PHASE", .WriteByte, .ReadByte⟩
  | 5 => ⟨"PAGE_PLUS_WRITE", .WriteBlock, .Illegal⟩
  | 6 => ⟨"PAGE_PLUS_READ", .Illegal, .ProcessCall⟩
  | 7 => ⟨"ZONE_CONFIG", .WriteWord, .ReadWord⟩
  | 8 => ⟨"ZONE_ACTIVE", .WriteWord, .ReadWord⟩
  | 16 => ⟨"WRITE_PROTECT", .WriteByte, .ReadByte⟩
  | 17 => ⟨"STORE_DEFAULT_ALL", .SendByte, .Illegal⟩
  | 18 => ⟨"RESTORE_DEFAULT_ALL", .SendByte, .Illegal⟩
  | 19 => ⟨"STORE_DEFAULT_CODE", .WriteByte, .Illegal⟩
  | 20 => ⟨"RESTORE_DEFAULT_CODE", .WriteByte, .Illegal⟩
  | 21 => ⟨"STORE_USER_ALL", .SendByte, .Illegal⟩
  | 22 => ⟨"RESTORE_USER_ALL", .SendByte, .Illegal⟩
  | 23 => ⟨"STORE_USER_CODE", .WriteByte, .Illegal⟩
  | 24 => ⟨"RESTORE_USER_CODE", .WriteByte, .Illegal⟩
  | 25 => ⟨"CAPABILITY", .Illegal, .ReadByte⟩
  | 26 => ⟨"QUERY", .Illegal, .ProcessCall⟩
  | 27 => ⟨"SMBALERT_MASK", .WriteWord, .ProcessCall⟩
  | 32 => ⟨"VOUT_MODE", .WriteByte, .ReadByte⟩
  | 33 => ⟨"VOUT_COMMAND", .WriteWord, .ReadWord⟩
  | 34 => ⟨"VOUT_TRIM", .WriteWord, .ReadWord⟩
  | 35 => ⟨"VOUT_CAL_OFFSET", .WriteWord, .ReadWord⟩
  | 36 => ⟨"VOUT_MAX", .WriteWord, .ReadWord⟩
  | 37 => ⟨"VOUT_MARGIN_HIGH", .WriteWord, .ReadWord⟩
  | 38 => ⟨"VOUT_MARGIN_LOW", .WriteWord, .ReadWord⟩
  | 39 => ⟨"VOUT_TRANSITION_RATE", .WriteWord, .ReadWord⟩
  | 40 => ⟨"VOUT_DROOP", .WriteWord, .ReadWord⟩
  | 41 => ⟨"VOUT_SCALE_LOOP", .WriteWord, .ReadWord⟩
  | 42 => ⟨"VOUT_SCALE_MONITOR", .WriteWord, .ReadWord⟩
  | 43 => ⟨"VOUT_MIN", .WriteWord, .ReadWord⟩
  | 48 => ⟨"COEFFICIENTS", .Illegal, .ProcessCall⟩
  | 49 => ⟨"POUT_MAX", .WriteWord, .ReadWord⟩
  | 50 => ⟨"MAX_DUTY", .WriteWord, .ReadWord⟩
  | 51 => ⟨"FREQUENCY_SWITCH", .WriteWord, .ReadWord⟩
  | 52 => ⟨"POWER_MODE", .WriteByte, .ReadByte⟩
  | 53 => ⟨"VIN_ON", .WriteWord, .ReadWord⟩
  | 54 => ⟨"VIN_OFF", .WriteWord, .ReadWord⟩
  | 55 => ⟨"INTERLEAVE", .WriteWord, .ReadWord⟩
  | 56 => ⟨"IOUT_CAL_GAIN", .WriteWord, .ReadWord⟩
  | 57 => ⟨"IOUT_CAL_OFFSET", .WriteWord, .ReadWord⟩
  | 58 => ⟨"FAN_CONFIG_1_2", .WriteByte, .ReadByte⟩
  | 59 => ⟨"FAN_COMMAND_1", .WriteWord, .ReadWord⟩
  | 60 => ⟨"FAN_COMMAND_2", .WriteWord, .ReadWord⟩
  | 61 => ⟨"FAN_CONFIG_3_4", .WriteByte, .ReadByte⟩
  | 62 => ⟨"FAN_COMMAND_3", .WriteWord, .ReadWord⟩
  | 63 => ⟨"FAN_COMMAND_4", .WriteWord, .ReadWord⟩
  | 64 => ⟨"VOUT_OV_FAULT_LIMIT", .WriteWord, .ReadWord⟩
  | 65 => ⟨"VOUT_OV_FAULT_RESPONSE", .WriteByte, .ReadByte⟩
  | 66 => ⟨"VOUT_OV_WARN_LIMIT", .WriteWord, .ReadWord⟩
  | 67 => ⟨"VOUT_UV_WARN_LIMIT", .WriteWord, .ReadWord⟩
  | 68 => ⟨"VOUT_UV_FAULT_LIMIT", .WriteWord, .ReadWord⟩
  | 69 => ⟨"VOUT_UV_FAULT_RESPONSE", .WriteByte, .ReadByte⟩
  | 70 => ⟨"IOUT_OC_FAULT_LIMIT", .WriteWord, .ReadWord⟩
  | 71 => ⟨"IOUT_OC_FAULT_RESPONSE", .WriteByte, .ReadByte⟩
  | 72 => ⟨"IOUT_OC_LV_FAULT_LIMIT", .WriteWord, .ReadWord⟩
  | 73 => ⟨"IOUT_OC_LV_FAULT_RESPONSE", .WriteByte, .ReadByte⟩
  | 74 => ⟨"IOUT_OC_WARN_LIMIT", .WriteWord, .ReadWord⟩
  | 75 => ⟨"IOUT_UC_FAULT_LIMIT", .WriteWord, .ReadWord⟩
  | 76 => ⟨"IOUT_UC_FAULT_RESPONSE", .WriteByte, .ReadByte⟩
  | 79 => ⟨"OT_FAULT_LIMIT", .WriteWord, .ReadWord⟩
  | 80 => ⟨"OT_FAULT_RESPONSE", .WriteByte, .ReadByte⟩
  | 81 => ⟨"OT_WARN_LIMIT", .WriteWord, .ReadWord⟩
  | 82 => ⟨"UT_WARN_LIMIT", .WriteWord, .ReadWord⟩
  | 83 => ⟨"UT_FAULT_LIMIT", .WriteWord, .ReadWord⟩
  | 84 => ⟨"UT_FAULT_RESPONSE", .WriteByte, .ReadByte⟩
  | 85 => ⟨"VIN_OV_FAULT_LIMIT", .WriteWord, .ReadWord⟩
  | 86 => ⟨"VIN_OV_FAULT_RESPONSE", .WriteByte, .ReadByte⟩
  | 87 => ⟨"VIN_OV_WARN_LIMIT", .WriteWord, .ReadWord⟩
  | 88 => ⟨"VIN_UV_WARN_LIMIT", .WriteWord, .ReadWord⟩
  | 89 => ⟨"VIN_UV_FAULT_LIMIT", .WriteWord, .ReadWord⟩
  | 90 => ⟨"VIN_UV_FAULT_RESPONSE", .WriteByte, .ReadByte⟩
  | 91 => ⟨"IIN_OC_FAULT_LIMIT", .WriteWord, .ReadWord⟩
  | 92 => ⟨"IIN_OC_FAULT_RESPONSE", .WriteByte, .ReadByte⟩
  | 93 => ⟨"IIN_OC_WARN_LIMIT", .WriteWord, .ReadWord⟩
  | 94 => ⟨"POWER_GOOD_ON", .WriteWord, .ReadWord⟩
  | 95 => ⟨"POWER_GOOD_OFF", .WriteWord, .ReadWord⟩
  | 96 => ⟨"TON_DELAY", .WriteWord, .ReadWord⟩
  | 97 => ⟨"TON_RISE", .WriteWord, .ReadWord⟩
  | 98 => ⟨"TON_MAX_FAULT_LIMIT", .WriteWord, .ReadWord⟩
  | 99 => ⟨"TON_MAX_FAULT_RESPONSE", .WriteByte, .ReadByte⟩
  | 100 => ⟨"TOFF_DELAY", .WriteWord, .ReadWord⟩
  | 101 => ⟨"TOFF_FALL", .WriteWord, .ReadWord⟩
  | 102 => ⟨"TOFF_MAX_WARN_LIMIT", .WriteWord, .ReadWord⟩
  | 103 => ⟨"Deprecated", .Unknown, .Unknown⟩
  | 104 => ⟨"POUT_OP_FAULT_LIMIT", .WriteWord, .ReadWord⟩
  | 105 => ⟨"POUT_OP_FAULT_RESPONSE", .WriteByte, .ReadByte⟩
  | 106 => ⟨"POUT_OP_WARN_LIMIT", .WriteWord, .ReadWord⟩
  | 107 => ⟨"PIN_OP_WARN_LIMIT", .WriteWord, .ReadWord⟩
  | 120 => ⟨"STATUS_BYTE", .WriteByte, .ReadByte⟩
  | 121 => ⟨"STATUS_WORD", .WriteWord, .ReadWord⟩
  | 122 => ⟨"STATUS_VOUT", .WriteByte, .ReadByte⟩
  | 123 => ⟨"STATUS_IOUT", .WriteByte, .ReadByte⟩
  | 124 => ⟨"STATUS_INPUT", .WriteByte, .ReadByte⟩
  | 125 => ⟨"STATUS_TEMPERATURE", .WriteByte, .ReadByte⟩
  | 126 => ⟨"STATUS_CML", .WriteByte, .ReadByte⟩
  | 127 => ⟨"STATUS_OTHER", .WriteByte, .ReadByte⟩
  | 128 => ⟨"STATUS_MFR_SPECIFIC", .WriteByte, .ReadByte⟩
  | 129 => ⟨"STATUS_FANS_1_2", .WriteByte, .ReadByte⟩
  | 130 => ⟨"STATUS_FANS_3_4", .WriteByte, .ReadByte⟩
  | 131 => ⟨"READ_KWH_IN", .Illegal, .ReadWord32⟩
  | 132 => ⟨"READ_KWH_OUT", .Illegal, .ReadWord32⟩
  | 133 => ⟨"READ_KWH_CONFIG", .WriteWord, .ReadWord⟩
  | 134 => ⟨"READ_EIN", .Illegal, .ReadBlock⟩
  | 135 => ⟨"READ_EOUT", .Illegal, .ReadBlock⟩
  | 136 => ⟨"READ_VIN", .Illegal, .ReadWord⟩
  | 137 => ⟨"READ_IIN", .Illegal, .ReadWord⟩
  | 138 => ⟨"READ_VCAP", .Illegal, .ReadWord⟩
  | 139 => ⟨"READ_VOUT", .Illegal, .ReadWord⟩
  | 140 => ⟨"READ_IOUT", .Illegal, .ReadWord⟩
  | 141 => ⟨"READ_TEMPERATURE_1", .Illegal, .ReadWord⟩
  | 142 => ⟨"READ_TEMPERATURE_2", .Illegal, .ReadWord⟩
  | 143 => ⟨"READ_TEMPERATURE_3", .Illegal, .ReadWord⟩
  | 144 => ⟨"READ_FAN_SPEED_1", .Illegal, .ReadWord⟩
  | 145 => ⟨"READ_FAN_SPEED_2", .Illegal, .ReadWord⟩
  | 146 => ⟨"READ_FAN_SPEED_3", .Illegal, .ReadWord⟩
  | 147 => ⟨"READ_FAN_SPEED_4", .Illegal, .ReadWord⟩
  | 148 => ⟨"READ_DUTY_CYCLE", .Illegal, .ReadWord⟩
  | 149 => ⟨"READ_FREQUENCY", .Illegal, .ReadWord⟩
  | 150 => ⟨"READ_POUT", .Illegal, .ReadWord⟩
  | 151 => ⟨"READ_PIN", .Illegal, .ReadWord⟩
  | 152 => ⟨"PMBUS_REVISION", .Illegal, .ReadByte⟩
  | 153 => ⟨"MFR_ID", .WriteBlock, .ReadBlock⟩
  | 154 => ⟨"MFR_MODEL", .WriteBlock, .ReadBlock⟩
  | 155 => ⟨"MFR_REVISION", .WriteBlock, .ReadBlock⟩
  | 156 => ⟨"MFR_LOCATION", .WriteBlock, .ReadBlock⟩
  | 157 => ⟨"MFR_DATE", .WriteBlock, .ReadBlock⟩
  | 158 => ⟨"MFR_SERIAL", .WriteBlock, .ReadBlock⟩
  | 159 => ⟨"APP_PROFILE_SUPPORT", .Illegal, .ReadBlock⟩
  | 160 => ⟨"MFR_VIN_MIN", .Illegal, .ReadWord⟩
  | 161 => ⟨"MFR_VIN_MAX", .Illegal, .ReadWord⟩
  | 162 => ⟨"MFR_IIN_MAX", .Illegal, .ReadWord⟩
  | 163 => ⟨"MFR_PIN_MAX", .Illegal, .ReadWord⟩
  | 164 => ⟨"MFR_VOUT_MIN", .Illegal, .ReadWord⟩
  | 165 => ⟨"MFR_VOUT_MAX", .Illegal, .ReadWord⟩
  | 166 => ⟨"MFR_IOUT_MAX", .Illegal, .ReadWord⟩
  | 167 => ⟨"MFR_POUT_MAX", .Illegal, .ReadWord⟩
  | 168 => ⟨"MFR_TAMBIENT_MAX", .Illegal, .ReadWord⟩
  | 169 => ⟨"MFR_TAMBIENT_MIN", .Illegal, .ReadWord⟩
  | 170 => ⟨"MFR_EFFICIENCY_LL", .Illegal, .ReadBlock⟩
  | 171 => ⟨"MFR_EFFICIENCY_HL", .Illegal, .ReadBlock⟩
  | 172 => ⟨"MFR_PIN_ACCURACY", .Illegal, .ReadByte⟩
  | 173 => ⟨"IC_DEVICE_ID", .Illegal, .ReadBlock⟩
  | 174 => ⟨"IC_DEVICE_REV", .Illegal, .ReadBlock⟩
  | 176 => ⟨"USER_DATA_00", .WriteBlock, .ReadBlock⟩
  | 177 => ⟨"USER_DATA_01", .WriteBlock, .ReadBlock⟩
  | 178 => ⟨"USER_DATA_02", .WriteBlock, .ReadBlock⟩
  | 179 => ⟨"USER_DATA_03", .WriteBlock, .ReadBlock⟩
  | 180 => ⟨"USER_DATA_04", .WriteBlock, .ReadBlock⟩
  | 181 => ⟨"USER_DATA_05", .WriteBlock, .ReadBlock⟩
  | 182 => ⟨"USER_DATA_06", .WriteBlock, .ReadBlock⟩
  | 183 => ⟨"USER_DATA_07", .WriteBlock, .ReadBlock⟩
  | 184 => ⟨"USER_DATA_08", .WriteBlock, .ReadBlock⟩
  | 185 => ⟨"USER_DATA_09", .WriteBlock, .ReadBlock⟩
  | 186 => ⟨"USER_DATA_10", .WriteBlock, .ReadBlock⟩
  | 187 => ⟨"USER_DATA_11", .WriteBlock, .ReadBlock⟩
  | 188 => ⟨"USER_DATA_12", .WriteBlock, .ReadBlock⟩
  | 189 => ⟨"USER_DATA_13", .WriteBlock, .ReadBlock⟩
  | 190 => ⟨"USER_DATA_14", .WriteBlock, .ReadBlock⟩
  | 191 => ⟨"USER_DATA_15", .WriteBlock, .ReadBlock⟩
  | 192 => ⟨"MFR_MAX_TEMP_1", .WriteWord, .ReadWord⟩
  | 193 => ⟨"MFR_MAX_TEMP_2", .WriteWord, .ReadWord⟩
  | 194 => ⟨"MFR_MAX_TEMP_3", .WriteWord, .ReadWord⟩
  | 196 => ⟨"MFR_SPECIFIC_C4", .MfrDefined, .MfrDefined⟩
  | 197 => ⟨"MFR_SPECIFIC_C5", .MfrDefined, .MfrDefined⟩
  | 198 => ⟨"MFR_SPECIFIC_C6", .MfrDefined, .MfrDefined⟩
  | 199 => ⟨"MFR_SPECIFIC_C7", .MfrDefined, .MfrDefined⟩
  | 200 => ⟨"MFR_SPECIFIC_C8", .MfrDefined, .MfrDefined⟩
  | 201 => ⟨"MFR_SPECIFIC_C9", .MfrDefined, .MfrDefined⟩
  | 202 => ⟨"MFR_SPECIFIC_CA", .MfrDefined, .MfrDefined⟩
  | 203 => ⟨"MFR_SPECIFIC_CB", .MfrDefined, .MfrDefined⟩
  | 204 => ⟨"MFR_SPECIFIC_CC", .MfrDefined, .MfrDefined⟩
  | 205 => ⟨"MFR_SPECIFIC_CD", .MfrDefined, .MfrDefined⟩
  | 206 => ⟨"MFR_SPECIFIC_CE", .MfrDefined, .MfrDefined⟩
  | 207 => ⟨"MFR_SPECIFIC_CF", .MfrDefined, .MfrDefined⟩
  | 208 => ⟨"MFR_SPECIFIC_D0", .MfrDefined, .MfrDefined⟩
  | 209 => ⟨"MFR_SPECIFIC_D1", .MfrDefined, .MfrDefined⟩
  | 210 => ⟨"MFR_SPECIFIC_D2", .MfrDefined, .MfrDefined⟩
  | 211 => ⟨"MFR_SPECIFIC_D3", .MfrDefined, .MfrDefined⟩
  | 212 => ⟨"MFR_SPECIFIC_D4", .MfrDefined, .MfrDefined⟩
  | 213 => ⟨"MFR_SPECIFIC_D5", .MfrDefined, .MfrDefined⟩
  | 214 => ⟨"MFR_SPECIFIC_D6", .MfrDefined, .MfrDefined⟩
  | 215 => ⟨"MFR_SPECIFIC_D7", .MfrDefined, .MfrDefined⟩
  | 216 => ⟨"MFR_SPECIFIC_D8", .MfrDefined, .MfrDefined⟩
  | 217 => ⟨"MFR_SPECIFIC_D9", .MfrDefined, .MfrDefined⟩
  | 218 => ⟨"MFR_SPECIFIC_DA", .MfrDefined, .MfrDefined⟩
  | 219 => ⟨"MFR_SPECIFIC_DB", .MfrDefined, .MfrDefined⟩
  | 220 => ⟨"MFR_SPECIFIC_DC", .MfrDefined, .MfrDefined⟩
  | 221 => ⟨"MFR_SPECIFIC_DD", .MfrDefined, .MfrDefined⟩
  | 222 => ⟨"MFR_SPECIFIC_DE", .MfrDefined, .MfrDefined⟩
  | 223 => ⟨"MFR_SPECIFIC_DF", .MfrDefined, .MfrDefined⟩
  | 224 => ⟨"MFR_SPECIFIC_E0", .MfrDefined, .MfrDefined⟩
  | 225 => ⟨"MFR_SPECIFIC_E1", .MfrDefined, .MfrDefined⟩
  | 226 => ⟨"MFR_SPECIFIC_E2", .MfrDefined, .MfrDefined⟩
  | 227 => ⟨"MFR_SPECIFIC_E3", .MfrDefined, .MfrDefined⟩
  | 228 => ⟨"MFR_SPECIFIC_E4", .MfrDefined, .MfrDefined⟩
  | 229 => ⟨"MFR_SPECIFIC_E5", .MfrDefined, .MfrDefined⟩
  | 230 => ⟨"MFR_SPECIFIC_E6", .MfrDefined, .MfrDefined⟩
  | 231 => ⟨"MFR_SPECIFIC_E7", .MfrDefined, .MfrDefined⟩
  | 232 => ⟨"MFR_SPECIFIC_E8", .MfrDefined, .MfrDefined⟩
  | 233 => ⟨"MFR_SPECIFIC_E9", .MfrDefined, .MfrDefined⟩
  | 234 => ⟨"MFR_SPECIFIC_EA", .MfrDefined, .MfrDefined⟩
  | 235 => ⟨"MFR_SPECIFIC_EB", .MfrDefined, .MfrDefined⟩
  | 236 => ⟨"MFR_SPECIFIC_EC", .MfrDefined, .MfrDefined⟩
  | 237 => ⟨"MFR_SPECIFIC_ED", .MfrDefined, .MfrDefined⟩
  | 238 => ⟨"MFR_SPECIFIC_EE", .MfrDefined, .MfrDefined⟩
  | 239 => ⟨"MFR_SPECIFIC_EF", .MfrDefined, .MfrDefined⟩
  | 240 => ⟨"MFR_SPECIFIC_F0", .MfrDefined, .MfrDefined⟩
  | 241 => ⟨"MFR_SPECIFIC_F1", .MfrDefined, .MfrDefined⟩
  | 242 => ⟨"MFR_SPECIFIC_F2", .MfrDefined, .MfrDefined⟩
  | 243 => ⟨"MFR_SPECIFIC_F3", .MfrDefined, .MfrDefined⟩
  | 244 => ⟨"MFR_SPECIFIC_F4", .MfrDefined, .MfrDefined⟩
  | 245 => ⟨"MFR_SPECIFIC_F5", .MfrDefined, .MfrDefined⟩
  | 246 => ⟨"MFR_SPECIFIC_F6", .MfrDefined, .MfrDefined⟩
  | 247 => ⟨"MFR_SPECIFIC_F7", .MfrDefined, .MfrDefined⟩
  | 248 => ⟨"MFR_SPECIFIC_F8", .MfrDefined, .MfrDefined⟩
  | 249 => ⟨"MFR_SPECIFIC_F9", .MfrDefined, .MfrDefined⟩
  | 250 => ⟨"MFR_SPECIFIC_FA", .MfrDefined, .MfrDefined⟩
  | 251 => ⟨"MFR_SPECIFIC_FB", .MfrDefined, .MfrDefined⟩
  | 252 => ⟨"MFR_SPECIFIC_FC", .MfrDefined, .MfrDefined⟩
  | 253 => ⟨"MFR_SPECIFIC_FD", .MfrDefined, .MfrDefined⟩
  | 254 => ⟨"MFR_SPECIFIC_COMMAND_EXT", .Extended, .Extended⟩
  | 255 => ⟨"PMBUS_COMMAND_EXT", .Extended, .Extended⟩
  | _ => ⟨"Deprecated", .Unknown, .Unknown⟩

/-- Modelled from the spec: `CommandCode::from_u8`, total over byte
values. -/
def CommandCode.from_u8 (b : Fin 256) : Option Command :=
  some (commandTable b.val)

/-- Claim C8: every byte value maps to exactly one `CommandCode` variant —
the conversion never fails — and codes unused by the protocol (such as
`0x09`, and the deliberately deprecated `0x67`) map to a defined
deprecated/unknown variant rather than to absence. -/
theorem command_code_total :
    (∀ b : Fin 256, ∃ c, CommandCode.from_u8 b = some c)
    ∧ CommandCode.from_u8 9 = some ⟨"Deprecated", .Unknown, .Unknown⟩
    ∧ CommandCode.from_u8 0x67 = some ⟨"Deprecated", .Unknown, .Unknown⟩ :=
  ⟨fun b => ⟨commandTable b.val, rfl⟩, rfl, rfl⟩

end Pmbus
